import Mathlib

set_option maxRecDepth 100000

/-!
Verification of the HNAP1 router client (`hnap1-client.js`) against its
natural-language specification.

The development shallowly embeds the client's functions as Lean definitions:
pure string computations become Lean functions, the mutable session object
(`this.privateKey`, `this.cookie`, `this.publicKey`, `this.challenge`,
`this.compareTimeStamp`) becomes an explicit `HNAP1Client` state value that is
threaded through the operations, and the wall clock (`Date.now()`) becomes an
explicit `now : Nat` argument (epoch milliseconds).
-/

namespace Hnap

/-! ## HMAC-MD5 primitive

Modelled from the spec: the repository requires `./md5` (`hex_hmac_md5`),
which is not part of the sources provided; §4.1 of the specification describes
it as the standard keyed-hash (HMAC) construction over a digest with 16-byte
output, i.e. HMAC-MD5, with contract `hmac(key, message) -> 32-character
lowercase hex string`, validated by the published reference vector
`hmac("Jefe", "what do ya want for nothing?") =
750c783e6ab0b503eaa86e310a5db738`.  The definitions below implement MD5
(RFC 1321) and the standard HMAC construction over `Nat` bytes with explicit
`% 2^32` reductions. -/

/-- Rotate a 32-bit value left by `s` bits. -/
def rotl32 (x s : Nat) : Nat :=
  ((x <<< s) ||| (x >>> (32 - s))) &&& 0xffffffff

/-- The 64 MD5 sine-table constants `T[i] = floor(2^32 * abs(sin(i+1)))`. -/
def md5K : List Nat :=
  [0xd76aa478, 0xe8c7b756, 0x242070db, 0xc1bdceee,
   0xf57c0faf, 0x4787c62a, 0xa8304613, 0xfd469501,
   0x698098d8, 0x8b44f7af, 0xffff5bb1, 0x895cd7be,
   0x6b901122, 0xfd987193, 0xa679438e, 0x49b40821,
   0xf61e2562, 0xc040b340, 0x265e5a51, 0xe9b6c7aa,
   0xd62f105d, 0x02441453, 0xd8a1e681, 0xe7d3fbc8,
   0x21e1cde6, 0xc33707d6, 0xf4d50d87, 0x455a14ed,
   0xa9e3e905, 0xfcefa3f8, 0x676f02d9, 0x8d2a4c8a,
   0xfffa3942, 0x8771f681, 0x6d9d6122, 0xfde5380c,
   0xa4beea44, 0x4bdecfa9, 0xf6bb4b60, 0xbebfbc70,
   0x289b7ec6, 0xeaa127fa, 0xd4ef3085, 0x04881d05,
   0xd9d4d039, 0xe6db99e5, 0x1fa27cf8, 0xc4ac5665,
   0xf4292244, 0x432aff97, 0xab9423a7, 0xfc93a039,
   0x655b59c3, 0x8f0ccc92, 0xffeff47d, 0x85845dd1,
   0x6fa87e4f, 0xfe2ce6e0, 0xa3014314, 0x4e0811a1,
   0xf7537e82, 0xbd3af235, 0x2ad7d2bb, 0xeb86d391]

/-- The per-round left-rotation amounts of MD5. -/
def md5S : List Nat :=
  [7, 12, 17, 22, 7, 12, 17, 22, 7, 12, 17, 22, 7, 12, 17, 22,
   5, 9, 14, 20, 5, 9, 14, 20, 5, 9, 14, 20, 5, 9, 14, 20,
   4, 11, 16, 23, 4, 11, 16, 23, 4, 11, 16, 23, 4, 11, 16, 23,
   6, 10, 15, 21, 6, 10, 15, 21, 6, 10, 15, 21, 6, 10, 15, 21]

/-- The MD5 round function for step `i` (F, G, H, I by quarter). -/
def md5F (i b c d : Nat) : Nat :=
  if i < 16 then (b &&& c) ||| ((0xffffffff - b) &&& d)
  else if i < 32 then (d &&& b) ||| ((0xffffffff - d) &&& c)
  else if i < 48 then b ^^^ c ^^^ d
  else c ^^^ (b ||| (0xffffffff - d))

/-- The MD5 message-word schedule for step `i`. -/
def md5G (i : Nat) : Nat :=
  if i < 16 then i
  else if i < 32 then (5 * i + 1) % 16
  else if i < 48 then (3 * i + 5) % 16
  else (7 * i) % 16

/-- One MD5 compression of a 16-word block into the running state. -/
def md5Block (w : List Nat) (st : Nat × Nat × Nat × Nat) : Nat × Nat × Nat × Nat :=
  let step := fun (s : Nat × Nat × Nat × Nat) (i : Nat) =>
    let a := s.1
    let b := s.2.1
    let c := s.2.2.1
    let d := s.2.2.2
    let f := (md5F i b c d + a + md5K.getD i 0 + w.getD (md5G i) 0) % 4294967296
    (d, (b + rotl32 f (md5S.getD i 0)) % 4294967296, b, c)
  let r := (List.range 64).foldl step st
  ((st.1 + r.1) % 4294967296, (st.2.1 + r.2.1) % 4294967296,
   (st.2.2.1 + r.2.2.1) % 4294967296, (st.2.2.2 + r.2.2.2) % 4294967296)

/-- The eight little-endian bytes of a 64-bit value. -/
def leBytes8 (n : Nat) : List Nat :=
  (List.range 8).map (fun i => (n >>> (8 * i)) &&& 255)

/-- MD5 padding: append `0x80`, zeros to 56 mod 64, then the bit length. -/
def md5Pad (msg : List Nat) : List Nat :=
  msg ++ [128] ++ List.replicate ((119 - msg.length % 64) % 64) 0 ++
    leBytes8 ((msg.length * 8) % 18446744073709551616)

/-- Decode a 64-byte block into its 16 little-endian 32-bit words. -/
def bytesToWords (block : List Nat) : List Nat :=
  (List.range 16).map (fun j =>
    block.getD (4 * j) 0 + ((block.getD (4 * j + 1) 0) <<< 8) +
      ((block.getD (4 * j + 2) 0) <<< 16) + ((block.getD (4 * j + 3) 0) <<< 24))

/-- Split a byte list into 64-byte chunks (fuel-structural so it reduces). -/
def chunksAux : Nat → List Nat → List (List Nat)
  | 0, _ => []
  | _, [] => []
  | fuel + 1, bs => bs.take 64 :: chunksAux fuel (bs.drop 64)

/-- Split a byte list into 64-byte chunks. -/
def chunks64 (bs : List Nat) : List (List Nat) :=
  chunksAux bs.length bs

/-- The MD5 digest of a byte string, as the four 32-bit state words. -/
def md5Words (msg : List Nat) : Nat × Nat × Nat × Nat :=
  (chunks64 (md5Pad msg)).foldl (fun st block => md5Block (bytesToWords block) st)
    (0x67452301, 0xefcdab89, 0x98badcfe, 0x10325476)

/-- The four little-endian bytes of a 32-bit word. -/
def word4 (w : Nat) : List Nat :=
  [w &&& 255, (w >>> 8) &&& 255, (w >>> 16) &&& 255, (w >>> 24) &&& 255]

/-- The 16-byte MD5 digest of a byte string. -/
def md5Bytes (msg : List Nat) : List Nat :=
  word4 (md5Words msg).1 ++ word4 (md5Words msg).2.1 ++
    word4 (md5Words msg).2.2.1 ++ word4 (md5Words msg).2.2.2

/-- Lowercase hex digit for a value below 16. -/
def hexDigit (n : Nat) : Char :=
  Char.ofNat (if n < 10 then 48 + n else 87 + n)

/-- Lowercase hex rendering of a byte list, two digits per byte. -/
def bytesToHex (bs : List Nat) : String :=
  String.mk (bs.foldr (fun b acc => hexDigit (b / 16) :: hexDigit (b % 16) :: acc) [])

/-- UTF-8 encoding of a single code point. -/
def utf8Char (n : Nat) : List Nat :=
  if n < 128 then [n]
  else if n < 2048 then [192 ||| (n >>> 6), 128 ||| (n &&& 63)]
  else if n < 65536 then
    [224 ||| (n >>> 12), 128 ||| ((n >>> 6) &&& 63), 128 ||| (n &&& 63)]
  else
    [240 ||| (n >>> 18), 128 ||| ((n >>> 12) &&& 63), 128 ||| ((n >>> 6) &&& 63),
     128 ||| (n &&& 63)]

/-- UTF-8 encoding of a string as a byte list. -/
def utf8Bytes (s : String) : List Nat :=
  s.data.foldr (fun c acc => utf8Char c.toNat ++ acc) []

/-- HMAC-MD5 over byte lists: keys longer than the 64-byte block are first
digested, the key is zero-padded to the block size, and the inner/outer pads
are `0x36`/`0x5c`. -/
def hmacMd5Bytes (key msg : List Nat) : List Nat :=
  let k0 := if 64 < key.length then md5Bytes key else key
  let k := k0 ++ List.replicate (64 - k0.length) 0
  let inner := md5Bytes ((k.map (fun b => b ^^^ 54)) ++ msg)
  md5Bytes ((k.map (fun b => b ^^^ 92)) ++ inner)

/-- Modelled from the spec: the client requires `hex_hmac_md5` from `./md5`,
a file that is not among the provided sources.  Per §4.1 it is the standard
HMAC construction over MD5 with contract `hmac(key, message) -> 32-character
lowercase hex string` (the argument order `key, message` is also how the
client's `generateHnapAuth` call is described in §4.3, and it reproduces the
§8 reference vector for key `"Jefe"`). -/
def hex_hmac_md5 (key msg : String) : String :=
  bytesToHex (hmacMd5Bytes (utf8Bytes key) (utf8Bytes msg))

/-- Uppercase a character in the ASCII range, as JavaScript's `toUpperCase`
does on the hex-digit strings it is applied to here. -/
def charUpper (c : Char) : Char :=
  if 97 ≤ c.toNat && c.toNat ≤ 122 then Char.ofNat (c.toNat - 32) else c

/-- JavaScript `toUpperCase()` on an ASCII string (every string it is applied
to in the client is a lowercase hex digest). -/
def jsToUpper (s : String) : String :=
  String.mk (s.data.map charUpper)

/-! ## JavaScript values and the XML parse collaborator

`parseXmlResponse` feeds the response text to `xml2js` configured with
`explicitArray: false`, `ignoreAttrs: true` and prefix-stripping tag-name
processors.  The specification treats generic XML parsing as an external
capability `parse(xmlText) -> tree`; the tree type below is the JavaScript
value shape `xml2js` produces (strings for leaves, objects for elements with
children, arrays for repeated sibling tags), and `parseXml` models the
capability with the configured options: namespace prefixes are stripped from
tag names, attributes are discarded, whitespace-only character data of an
element with children is dropped, an element with only character data
collapses to that string, and an empty element becomes `""`. -/

/-- A JavaScript value as produced by `xml2js`. -/
inductive JsVal where
  | str : String → JsVal
  | arr : List JsVal → JsVal
  | obj : List (String × JsVal) → JsVal

/-- JavaScript truthiness of a possibly-undefined value: `undefined` and the
empty string are falsy, every object and non-empty string is truthy. -/
def jsTruthy : Option JsVal → Bool
  | none => false
  | some (.str s) => s != ""
  | some _ => true

/-- `Object.keys`: key list of an object, index list of a string or array. -/
def jsKeys : JsVal → List String
  | .obj l => l.map Prod.fst
  | .str s => (List.range s.length).map Nat.repr
  | .arr l => (List.range l.length).map Nat.repr

/-- Numeric parse of a property key (the canonical-index test JavaScript
applies to string and array index reads). -/
def keyToNat (k : String) : Option Nat :=
  if k.data ≠ [] && k.data.all (fun c => 48 ≤ c.toNat && c.toNat ≤ 57) then
    some (k.data.foldl (fun n c => n * 10 + (c.toNat - 48)) 0)
  else none

/-- JavaScript property read `v[k]`, `undefined` (`none`) when absent.
String and array reads support the numeric index properties that
`Object.keys` exposes for them. -/
def jsGetKey : JsVal → String → Option JsVal
  | .obj l, k => (l.find? (fun p => p.1 == k)).map Prod.snd
  | .str s, k =>
    match keyToNat k with
    | some i => if i < s.length then some (.str (String.mk [s.data.getD i ' '])) else none
    | none => none
  | .arr l, k =>
    match keyToNat k with
    | some i => l.get? i
    | none => none

/-- Character data that `xml2js` deletes before assembling children. -/
def isWhite (s : String) : Bool :=
  s.data.all (fun c => c == ' ' || c == '\n' || c == '\t' || c == '\r')

/-- Tokens of the XML scanner. -/
inductive XmlTok where
  | text : String → XmlTok
  | openTag : String → Bool → XmlTok
  | closeTag : String → XmlTok
  | misc : XmlTok

/-- The segment of a character list after its last colon (the whole list when
no colon occurs). -/
def afterColon (cs : List Char) : List Char :=
  cs.foldl (fun acc c => if c == ':' then [] else acc ++ [c]) []

/-- Strip the namespace prefix from a tag name (`soap:Body` becomes `Body`),
as the configured `stripPrefix` tag-name processor does. -/
def localName (s : String) : String :=
  String.mk (afterColon s.data)

/-- Classify the contents of one `<...>` tag. -/
def classifyTag (content : List Char) : XmlTok :=
  match content with
  | [] => .misc
  | c :: rest =>
    if c == '?' || c == '!' then .misc
    else if c == '/' then
      .closeTag (localName (String.mk (rest.takeWhile (fun ch =>
        !(ch == ' ' || ch == '\n' || ch == '\t' || ch == '\r')))))
    else
      let name := (c :: rest).takeWhile (fun ch =>
        !(ch == ' ' || ch == '\n' || ch == '\t' || ch == '\r' || ch == '/'))
      .openTag (localName (String.mk name)) ((c :: rest).getLast? == some '/')

/-- Scan XML text into tokens (fuel-structural so it reduces). -/
def xmlToksAux : Nat → List Char → List XmlTok
  | 0, _ => []
  | _, [] => []
  | fuel + 1, '<' :: rest =>
    let content := rest.takeWhile (fun ch => ch ≠ '>')
    classifyTag content :: xmlToksAux fuel ((rest.dropWhile (fun ch => ch ≠ '>')).drop 1)
  | fuel + 1, cs =>
    .text (String.mk (cs.takeWhile (fun ch => ch ≠ '<'))) ::
      xmlToksAux fuel (cs.dropWhile (fun ch => ch ≠ '<'))

/-- Insert a closed child into its parent's child list: a fresh tag is
appended, a repeated tag folds its values into an array (`explicitArray:
false` puts a lone child directly, two make a pair array, more push). -/
def assignOrPush (children : List (String × JsVal)) (k : String) (v : JsVal) :
    List (String × JsVal) :=
  match children.find? (fun p => p.1 == k) with
  | none => children ++ [(k, v)]
  | some _ =>
    children.map (fun p =>
      if p.1 == k then
        (p.1, match p.2 with
              | .arr xs => .arr (xs ++ [v])
              | old => .arr [old, v])
      else p)

/-- An element being assembled: its tag name, accumulated character data, and
closed children so far. -/
structure XmlFrame where
  name : String
  text : String
  children : List (String × JsVal)

/-- The value of a closed element: character data alone stays a string (an
empty element becomes `""`), whitespace-only character data next to children
is dropped, and mixed content keeps its text under the `_` key. -/
def closeValue (f : XmlFrame) : JsVal :=
  if f.children.isEmpty then .str f.text
  else if isWhite f.text then .obj f.children
  else .obj (("_", .str f.text) :: f.children)

/-- Assemble the token stream into the root value via a frame stack. -/
def xmlBuild : List XmlTok → List XmlFrame → Except String JsVal
  | [], [root] => .ok (.obj root.children)
  | [], _ => .error "Unexpected end of XML input"
  | tok :: toks, stack =>
    match tok, stack with
    | .misc, _ => xmlBuild toks stack
    | .text t, frame :: up => xmlBuild toks ({ frame with text := frame.text ++ t } :: up)
    | .openTag n true, frame :: up =>
      xmlBuild toks ({ frame with children := assignOrPush frame.children n (.str "") } :: up)
    | .openTag n false, _ => xmlBuild toks (⟨n, "", []⟩ :: stack)
    | .closeTag _, frame :: parent :: up =>
      xmlBuild toks
        ({ parent with children := assignOrPush parent.children frame.name (closeValue frame) } :: up)
    | _, _ => .error "Malformed XML"

/-- Modelled from the spec: the external XML parsing capability
`parse(xmlText) -> tree` (the `xml2js` collaborator with the client's
options), producing `{rootTag: rootValue}` for a well-formed document. -/
def parseXml (s : String) : Except String JsVal :=
  xmlBuild (xmlToksAux s.data.length s.data) [⟨"", "", []⟩]

/-! ## The HNAP1 client

The mutable fields of the JavaScript `HNAP1Client` object become an explicit
state record.  `null` fields are `none`; where the code concatenates a
possibly-`null` field into a string, JavaScript coerces `null` to the string
`"null"`, modelled by `jsString`. -/

/-- The session state of one `HNAP1Client` instance. -/
structure HNAP1Client where
  routerIP : String
  username : String
  password : String
  privateKey : Option String
  cookie : Option String
  publicKey : Option String
  challenge : Option String
  compareTimeStamp : Nat

/-- The constructor `new HNAP1Client(routerIP, username, password)`. -/
def mkClient (routerIP username password : String) : HNAP1Client :=
  ⟨routerIP, username, password, none, none, none, none, 0⟩

/-- JavaScript string coercion of a possibly-`null` string field. -/
def jsString : Option String → String
  | none => "null"
  | some s => s

/-- JavaScript truthiness of a possibly-`null` string field, as tested by
`if (this.privateKey)` and `if (this.cookie)`. -/
def truthyOpt : Option String → Bool
  | none => false
  | some s => s != ""

/-- `this.baseUrl` as set by the constructor. -/
def HNAP1Client.baseUrl (c : HNAP1Client) : String :=
  "http://" ++ c.routerIP ++ "/HNAP1/"

/-- `generatePrivateKey`: `hex_hmac_md5(this.publicKey + this.password,
this.challenge).toUpperCase()`. -/
def HNAP1Client.generatePrivateKey (c : HNAP1Client) : String :=
  jsToUpper (hex_hmac_md5 (jsString c.publicKey ++ c.password) (jsString c.challenge))

/-- `generateLoginPassword`: `hex_hmac_md5(this.privateKey,
this.challenge).toUpperCase()`. -/
def HNAP1Client.generateLoginPassword (c : HNAP1Client) : String :=
  jsToUpper (hex_hmac_md5 (jsString c.privateKey) (jsString c.challenge))

/-- `getUniqueTimestamp`: reduce `Date.now()` modulo `2000000000000`, bump by
one exactly when the result equals the stored `compareTimeStamp`, store it,
and return its decimal string. -/
def HNAP1Client.getUniqueTimestamp (c : HNAP1Client) (now : Nat) : String × HNAP1Client :=
  let timestamp := now % 2000000000000
  let timestamp := if c.compareTimeStamp = timestamp then timestamp + 1 else timestamp
  (Nat.repr timestamp, { c with compareTimeStamp := timestamp })

/-- `generateHnapAuth`: uppercased `hex_hmac_md5(this.privateKey, timestamp +
soapAction)` followed by a space and the timestamp. -/
def HNAP1Client.generateHnapAuth (c : HNAP1Client) (now : Nat) (soapAction : String) :
    String × HNAP1Client :=
  let r := c.getUniqueTimestamp now
  let auth := jsToUpper (hex_hmac_md5 (jsString c.privateKey) (r.1 ++ soapAction))
  (auth ++ " " ++ r.1, r.2)

/-- An outgoing HTTP request assembled by `makeHNAPRequest`: target URL, the
always-present `Content-Type` and `SOAPAction` headers, the conditional
`HNAP_AUTH` and `Cookie` headers, and the XML body. -/
structure HnapRequest where
  url : String
  contentType : String
  soapAction : String
  hnapAuth : Option String
  cookie : Option String
  body : String

/-- `makeHNAPRequest` up to the transport call: build the quoted SOAPAction
URI, attach `HNAP_AUTH` when `this.privateKey` is truthy (mutating the
timestamp state), attach `Cookie: uid=...` when `this.cookie` is truthy. -/
def HNAP1Client.makeHNAPRequest (c : HNAP1Client) (now : Nat) (action body : String) :
    HnapRequest × HNAP1Client :=
  let soapAction := "\"http://purenetworks.com/HNAP1/" ++ action ++ "\""
  let withAuth :=
    if truthyOpt c.privateKey then
      let r := c.generateHnapAuth now soapAction
      (some r.1, r.2)
    else (none, c)
  let cookieHeader := if truthyOpt c.cookie then some ("uid=" ++ jsString c.cookie) else none
  ({ url := c.baseUrl, contentType := "text/xml; charset=utf-8", soapAction := soapAction,
     hnapAuth := withAuth.1, cookie := cookieHeader, body := body }, withAuth.2)

/-- `createSOAP`: the fixed-namespace envelope template with one child element
per parameter, emitted in the given order, values embedded verbatim.  The
literal text (including indentation and trailing spaces) is byte-for-byte the
template string of the source. -/
def createSOAP (action : String) (params : List (String × String)) : String :=
  "<?xml version=\"1.0\" encoding=\"utf-8\"?>\n      <soap:Envelope xmlns:xsi=\"http://www.w3.org/2001/XMLSchema-instance\" \n                     xmlns:xsd=\"http://www.w3.org/2001/XMLSchema\" \n                     xmlns:soap=\"http://schemas.xmlsoap.org/soap/envelope/\">\n        <soap:Body>\n          <"
    ++ action ++ " xmlns=\"http://purenetworks.com/HNAP1/\">"
    ++ params.foldl (fun acc p => acc ++ "<" ++ p.1 ++ ">" ++ p.2 ++ "</" ++ p.1 ++ ">") ""
    ++ "</" ++ action ++ ">\n        </soap:Body>\n      </soap:Envelope>"

/-- The envelope-extraction logic of `parseXmlResponse` on the parsed tree:
read `result.Envelope`, throw unless it and its `Body` are truthy, then
return `envelope.Body[Object.keys(envelope.Body)[0]]` (which is `undefined`,
modelled `none`, when the body object has no keys). -/
def parseEnvelopeTree (result : JsVal) : Except String (Option JsVal) :=
  match jsGetKey result "Envelope" with
  | none => .error "Invalid SOAP response: Envelope or Body not found"
  | some envelope =>
    if jsTruthy (some envelope) then
      match jsGetKey envelope "Body" with
      | none => .error "Invalid SOAP response: Envelope or Body not found"
      | some body =>
        if jsTruthy (some body) then
          match (jsKeys body).head? with
          | none => .ok none
          | some k => .ok (jsGetKey body k)
        else .error "Invalid SOAP response: Envelope or Body not found"
    else .error "Invalid SOAP response: Envelope or Body not found"

/-- `parseXmlResponse`: parse the XML text, extract the first child of
`Envelope.Body`; any error thrown inside is re-raised with the
`XML parsing failed: ` prefix. -/
def parseXmlResponse (xmlString : String) : Except String (Option JsVal) :=
  match parseXml xmlString with
  | .error m => .error ("XML parsing failed: " ++ m)
  | .ok result =>
    match parseEnvelopeTree result with
    | .error m => .error ("XML parsing failed: " ++ m)
    | .ok v => .ok v

/-- The state mutation and validation of `requestLoginChallenge` after its
response is parsed: the parsed `Challenge`, `Cookie` and `PublicKey` fields
(absent modelled as `none`) are stored into the session unconditionally, and
then the error is thrown when any of the freshly stored fields is falsy.  The
mutated state is returned together with the error, as a JavaScript exception
leaves the mutations to `this` in place. -/
def HNAP1Client.applyChallengeResult (c : HNAP1Client)
    (challenge cookie publicKey : Option String) : HNAP1Client × Option String :=
  let c' := { c with challenge := challenge, cookie := cookie, publicKey := publicKey }
  (c',
    if !truthyOpt c'.challenge || !truthyOpt c'.cookie || !truthyOpt c'.publicKey then
      some "Login challenge request failed"
    else none)

/-- `performLogin` up to the transport call.  The source lines 71-83 contain
no precondition test and no conditional: the private key is stored, the login
password derived from it, the SOAP body built, and `makeHNAPRequest` invoked
unconditionally. -/
def HNAP1Client.performLoginRequest (c : HNAP1Client) (now : Nat) :
    HnapRequest × HNAP1Client :=
  let c1 := { c with privateKey := some c.generatePrivateKey }
  let loginPassword := c1.generateLoginPassword
  let body := createSOAP "Login"
    [("Action", "login"), ("Username", c1.username), ("LoginPassword", loginPassword),
     ("Captcha", "")]
  c1.makeHNAPRequest now "Login" body

/-! ## Reference definitions taken from the specification's words

These follow the spec text rather than the source, for comparison with the
embedded code. -/

/-- The specification's `derivePrivateKey` formula taken at its word (§4.2):
`hmac(key = challenge, message = publicKey + password)`, uppercased. -/
def specDerivePrivateKey (publicKey password challenge : String) : String :=
  jsToUpper (hex_hmac_md5 challenge (publicKey ++ password))

/-- The specification's `deriveLoginProof` formula taken at its word (§4.2):
`hmac(key = challenge, message = privateKey)`, uppercased. -/
def specDeriveLoginProof (privateKey challenge : String) : String :=
  jsToUpper (hex_hmac_md5 challenge privateKey)

/-- The deduplicated timestamp of §4.3 steps 1-2: current epoch milliseconds
modulo `2*10^12`, incremented by one when it equals the stored value. -/
def specTimestamp (now last : Nat) : Nat :=
  let t := now % 2000000000000
  if last = t then t + 1 else t

/-- Run `getUniqueTimestamp` once per clock reading, collecting the returned
strings. -/
def runTimestamps (c : HNAP1Client) : List Nat → List String
  | [] => []
  | now :: rest =>
    let r := c.getUniqueTimestamp now
    r.1 :: runTimestamps r.2 rest

/-- Run `getUniqueTimestamp` once per clock reading, collecting the stored
`compareTimeStamp` values (the numeric timestamps returned). -/
def runCompare (c : HNAP1Client) : List Nat → List Nat
  | [] => []
  | now :: rest =>
    let r := c.getUniqueTimestamp now
    r.2.compareTimeStamp :: runCompare r.2 rest

/-- Strict increase of a number sequence, as a computable check. -/
def strictIncr : List Nat → Bool
  | [] => true
  | [_] => true
  | a :: b :: rest => Nat.blt a b && strictIncr (b :: rest)

/-- Body-lacks-envelope test of the claim C5 premise: the parse tree has no
`Envelope` key, or the `Envelope` value has no `Body` key under it. -/
def lacksEnvelopeOrBody (t : JsVal) : Bool :=
  match jsGetKey t "Envelope" with
  | none => true
  | some e => (jsGetKey e "Body").isNone

/-! ## Claims -/

/-- C1 counterexample: the claim's derivation `hmac(key = challenge,
message = publicKey + password)` disagrees with `generatePrivateKey` on the
client whose `publicKey` is `"ABCD"`, `password` is `""` and `challenge` is
`"1234"`: the code keys the HMAC with `publicKey + password` and digests the
challenge, not the other way around. -/
theorem c1_counterexample :
    ¬ ({ mkClient "192.168.0.1" "Admin" "" with
          publicKey := some "ABCD", challenge := some "1234" } : HNAP1Client).generatePrivateKey
        = specDerivePrivateKey "ABCD" "" "1234" := by
  decide

/-- C1 (amended): for every client with `publicKey` and `challenge` set,
`generatePrivateKey` returns the uppercased hex HMAC digest computed with
key = publicKey + password over message = challenge, and, when `privateKey`
is set, `generateLoginPassword` returns the uppercased hex HMAC digest with
key = privateKey over message = challenge. -/
theorem c1_key_message_roles (c : HNAP1Client) (pk ch : String)
    (hpk : c.publicKey = some pk) (hch : c.challenge = some ch) :
    c.generatePrivateKey = jsToUpper (hex_hmac_md5 (pk ++ c.password) ch) ∧
    (∀ k, c.privateKey = some k →
      c.generateLoginPassword = jsToUpper (hex_hmac_md5 k ch)) := by
  constructor
  · simp [HNAP1Client.generatePrivateKey, hpk, hch, jsString]
  · intro k hk
    simp [HNAP1Client.generateLoginPassword, hk, hch, jsString]

/-- C1 witness: the amended statement at a concrete client. -/
theorem c1_witness :
    ({ mkClient "192.168.0.1" "Admin" "pw" with
        publicKey := some "AB", challenge := some "CD" } : HNAP1Client).generatePrivateKey
      = jsToUpper (hex_hmac_md5 ("AB" ++ "pw") "CD") :=
  (c1_key_message_roles _ "AB" "CD" rfl rfl).1

/-- C2: with the clock frozen at one millisecond value for three successive
calls on one fresh client, `getUniqueTimestamp` returns `t`, `t+1`, `t`: the
third returned timestamp repeats the first and decreases, so the returned
sequence (equally the `compareTimeStamp` sequence) is not strictly
increasing. -/
theorem c2_clock_frozen_repeats :
    runTimestamps (mkClient "192.168.0.1" "Admin" "")
        [1700000000000, 1700000000000, 1700000000000]
      = ["1700000000000", "1700000000001", "1700000000000"] ∧
    runCompare (mkClient "192.168.0.1" "Admin" "")
        [1700000000000, 1700000000000, 1700000000000]
      = [1700000000000, 1700000000001, 1700000000000] ∧
    strictIncr (runCompare (mkClient "192.168.0.1" "Admin" "")
        [1700000000000, 1700000000000, 1700000000000]) = false := by
  exact ⟨rfl, rfl, rfl⟩

/-- C3 counterexample: `performLogin` invoked on a freshly constructed client
(no challenge handshake: `challenge`, `cookie`, `publicKey` all `null`) does
not fail with any precondition error; it derives credentials from the
JavaScript-coerced `null` material and assembles the login request, complete
with an `HNAP_AUTH` header signed by the garbage key and a `LoginPassword`
computed from it. -/
theorem c3_counterexample :
    ((mkClient "192.168.0.1" "Admin" "pw").performLoginRequest 1700000000000).1.hnapAuth
        = some "C2A740B91B4243C313E82D4BB8CF2F61 1700000000000" ∧
    ((mkClient "192.168.0.1" "Admin" "pw").performLoginRequest 1700000000000).1.body
        = createSOAP "Login"
            [("Action", "login"), ("Username", "Admin"),
             ("LoginPassword", "F130B619A6E423E6D967AE83AC5DD91B"), ("Captcha", "")] := by
  exact ⟨by decide, rfl⟩

/-- C3 (amended): `performLogin` performs no handshake-state precondition
check.  Invoked on any freshly constructed client, it computes the private
key and login password from the `null`-coerced challenge material
(JavaScript turns `null + password` into `"null" + password`) and issues the
login request to the device. -/
theorem c3_no_precondition (rip u p : String) (now : Nat) :
    ((mkClient rip u p).performLoginRequest now).1.url = "http://" ++ rip ++ "/HNAP1/" ∧
    ((mkClient rip u p).performLoginRequest now).1.soapAction
      = "\"http://purenetworks.com/HNAP1/Login\"" ∧
    ((mkClient rip u p).performLoginRequest now).1.body
      = createSOAP "Login"
          [("Action", "login"), ("Username", u),
           ("LoginPassword",
             jsToUpper (hex_hmac_md5 (jsToUpper (hex_hmac_md5 ("null" ++ p) "null")) "null")),
           ("Captcha", "")] := by
  exact ⟨rfl, rfl, rfl⟩

/-- C4 counterexample: when the parsed challenge response carries
`Challenge = "abc"` and `PublicKey = "k"` but no `Cookie`,
`requestLoginChallenge` raises the handshake error, yet the session's
`challenge` field has already been overwritten: the update is not atomic. -/
theorem c4_counterexample :
    ((mkClient "192.168.0.1" "Admin" "").applyChallengeResult (some "abc") none (some "k")).2
        = some "Login challenge request failed" ∧
    ((mkClient "192.168.0.1" "Admin" "").applyChallengeResult (some "abc") none (some "k")).1.challenge
        ≠ (mkClient "192.168.0.1" "Admin" "").challenge := by
  exact ⟨rfl, by decide⟩

/-- C4 (amended): `requestLoginChallenge` stores the response's `Challenge`,
`Cookie` and `PublicKey` into the session fields unconditionally, before
validating them; the handshake error is raised exactly when at least one of
the three stored values is absent or empty, and in that case the partially
updated fields remain in place. -/
theorem c4_store_then_check (c : HNAP1Client) (ch co pk : Option String) :
    (c.applyChallengeResult ch co pk).1.challenge = ch ∧
    (c.applyChallengeResult ch co pk).1.cookie = co ∧
    (c.applyChallengeResult ch co pk).1.publicKey = pk ∧
    ((c.applyChallengeResult ch co pk).2 = none
      ↔ (truthyOpt ch = true ∧ truthyOpt co = true ∧ truthyOpt pk = true)) := by
  refine ⟨rfl, rfl, rfl, ?_⟩
  unfold HNAP1Client.applyChallengeResult
  cases hch : truthyOpt ch <;> cases hco : truthyOpt co <;> cases hpk : truthyOpt pk <;>
    simp [hch, hco, hpk]

/-- C5: for every XML text whose parse tree lacks an `Envelope` element, or
lacks a `Body` under it, `parseXmlResponse` fails with the malformed-envelope
protocol error (the `Invalid SOAP response: Envelope or Body not found` error
re-raised under the `XML parsing failed: ` prefix), and with no error of any
other kind. -/
theorem c5_malformed_envelope (s : String) (t : JsVal)
    (hp : parseXml s = .ok t) (hl : lacksEnvelopeOrBody t = true) :
    parseXmlResponse s
      = .error "XML parsing failed: Invalid SOAP response: Envelope or Body not found" := by
  unfold lacksEnvelopeOrBody at hl
  have hPE : parseEnvelopeTree t
      = .error "Invalid SOAP response: Envelope or Body not found" := by
    cases hE : jsGetKey t "Envelope" with
    | none => simp only [parseEnvelopeTree, hE]
    | some e =>
      rw [hE] at hl
      have hB : jsGetKey e "Body" = none := Option.isNone_iff_eq_none.mp hl
      cases hT : jsTruthy (some e) <;>
        simp only [parseEnvelopeTree, hE, hB, hT, Bool.false_eq_true, if_false, if_true,
          reduceIte]
  simp only [parseXmlResponse, hp, hPE]
  rfl

/-- C5 witness: the spec's own example `parse("<foo/>")`. -/
theorem c5_witness :
    parseXmlResponse "<foo/>"
      = .error "XML parsing failed: Invalid SOAP response: Envelope or Body not found" :=
  c5_malformed_envelope "<foo/>" (.obj [("foo", .str "")]) rfl rfl

/-- C6: for every client with `privateKey` set, `generateHnapAuth` returns
`signature ++ " " ++ timestamp` where the timestamp is the clock value modulo
`2*10^12`, incremented by one exactly when it equals the stored
`compareTimeStamp` (and then stored), and the signature is the uppercased hex
HMAC digest keyed by the private key over the timestamp string followed by
the SOAP action URI. -/
theorem c6_hnap_auth_formula (c : HNAP1Client) (now : Nat) (soapAction pk : String)
    (h : c.privateKey = some pk) :
    (c.generateHnapAuth now soapAction).1
      = jsToUpper (hex_hmac_md5 pk
            (Nat.repr (specTimestamp now c.compareTimeStamp) ++ soapAction))
          ++ " " ++ Nat.repr (specTimestamp now c.compareTimeStamp) ∧
    (c.generateHnapAuth now soapAction).2.compareTimeStamp
      = specTimestamp now c.compareTimeStamp := by
  have hh : jsString c.privateKey = pk := by rw [h]; rfl
  refine ⟨?_, ?_⟩ <;>
    simp [HNAP1Client.generateHnapAuth, HNAP1Client.getUniqueTimestamp, specTimestamp, hh]

/-- A client holding a private key whose stored timestamp is 77, for the C6
witness. -/
def c6Client : HNAP1Client :=
  { mkClient "192.168.0.1" "Admin" "" with privateKey := some "AA", compareTimeStamp := 77 }

/-- C6 witness: a concrete client whose stored timestamp collides with the
clock value, exercising the increment branch. -/
theorem c6_witness :
    (c6Client.generateHnapAuth 77 "\"act\"").1
      = jsToUpper (hex_hmac_md5 "AA" (Nat.repr (specTimestamp 77 77) ++ "\"act\"")) ++ " "
          ++ Nat.repr (specTimestamp 77 77) :=
  (c6_hnap_auth_formula c6Client 77 "\"act\"" "AA" rfl).1

/-- C7: round-trip of the SOAP codec at the mapping of the spec's test:
parsing the envelope text built by `createSOAP` returns exactly the ordered
parameter mapping, each value verbatim. -/
theorem c7_roundtrip :
    parseXmlResponse (createSOAP "EchoTest" [("A", "1"), ("B", "2")])
      = .ok (some (.obj [("A", .str "1"), ("B", .str "2")])) := by rfl

/-- A client whose private key is present but empty, for the C8
counterexample. -/
def c8Client : HNAP1Client :=
  { mkClient "192.168.0.1" "Admin" "" with privateKey := some "" }

/-- C8 counterexample: on a client whose `privateKey` is the empty string
(set, i.e. non-null), `makeHNAPRequest` attaches no `HNAP_AUTH` header: the
attachment condition is JavaScript truthiness, not non-nullness. -/
theorem c8_counterexample :
    ¬ (((c8Client.makeHNAPRequest 0 "GetDeviceSettings" "body").1.hnapAuth).isSome = true
        ↔ c8Client.privateKey.isSome = true) := by
  decide

/-- C8 (amended): `makeHNAPRequest` attaches the `HNAP_AUTH` header exactly
when `privateKey` is truthy (non-null and non-empty), and the `Cookie` header,
with value `uid=` followed by the cookie, exactly when `cookie` is truthy. -/
theorem c8_truthy_headers (c : HNAP1Client) (now : Nat) (action body : String) :
    ((c.makeHNAPRequest now action body).1.hnapAuth).isSome = truthyOpt c.privateKey ∧
    ((c.makeHNAPRequest now action body).1.cookie).isSome = truthyOpt c.cookie ∧
    (truthyOpt c.cookie = true →
      (c.makeHNAPRequest now action body).1.cookie = some ("uid=" ++ jsString c.cookie)) := by
  refine ⟨?_, ?_, ?_⟩
  · cases h : truthyOpt c.privateKey <;> simp [HNAP1Client.makeHNAPRequest, h]
  · cases h : truthyOpt c.cookie <;> simp [HNAP1Client.makeHNAPRequest, h]
  · intro h
    simp [HNAP1Client.makeHNAPRequest, h]

/-- C9: the SOAPAction string sent in the header and signed into `HNAP_AUTH`
carries literal surrounding double quotes: the signature is the HMAC digest,
keyed by the private key, of the timestamp string followed by
`"http://purenetworks.com/HNAP1/<action>"` including both quote
characters. -/
theorem c9_quoted_soapaction (c : HNAP1Client) (now : Nat) (action body pk : String)
    (h : c.privateKey = some pk) (hne : (pk != "") = true) :
    (c.makeHNAPRequest now action body).1.soapAction
      = "\"http://purenetworks.com/HNAP1/" ++ action ++ "\"" ∧
    (c.makeHNAPRequest now action body).1.hnapAuth
      = some (jsToUpper (hex_hmac_md5 pk
            (Nat.repr (specTimestamp now c.compareTimeStamp)
              ++ ("\"http://purenetworks.com/HNAP1/" ++ action ++ "\"")))
          ++ " " ++ Nat.repr (specTimestamp now c.compareTimeStamp)) := by
  have ht : truthyOpt c.privateKey = true := by rw [h]; exact hne
  have hh : jsString c.privateKey = pk := by rw [h]; rfl
  refine ⟨rfl, ?_⟩
  simp [HNAP1Client.makeHNAPRequest, ht, HNAP1Client.generateHnapAuth,
    HNAP1Client.getUniqueTimestamp, specTimestamp, hh]

/-- A client holding the private key `"AB"`, for the C9 witness. -/
def c9Client : HNAP1Client :=
  { mkClient "10.0.0.1" "Admin" "" with privateKey := some "AB" }

/-- C9 witness: the quoted-action signature statement at a concrete client. -/
theorem c9_witness :
    (c9Client.makeHNAPRequest 5 "Reboot" "the-body").1.soapAction
      = "\"http://purenetworks.com/HNAP1/" ++ "Reboot" ++ "\"" ∧
    (c9Client.makeHNAPRequest 5 "Reboot" "the-body").1.hnapAuth
      = some (jsToUpper (hex_hmac_md5 "AB"
            (Nat.repr (specTimestamp 5 0)
              ++ ("\"http://purenetworks.com/HNAP1/" ++ "Reboot" ++ "\"")))
          ++ " " ++ Nat.repr (specTimestamp 5 0)) :=
  c9_quoted_soapaction c9Client 5 "Reboot" "the-body" "AB" rfl rfl

/-- C10 counterexample: a `Body` with zero child elements is represented by
the XML parser as its character data — the empty string here — so the
envelope check treats it as absent and `parseXmlResponse` raises the
malformed-envelope error instead of returning `undefined`. -/
theorem c10_counterexample :
    parseXml "<Envelope><Body></Body></Envelope>"
      = .ok (.obj [("Envelope", .obj [("Body", .str "")])]) ∧
    parseXmlResponse "<Envelope><Body></Body></Envelope>"
      = .error "XML parsing failed: Invalid SOAP response: Envelope or Body not found" :=
  ⟨by rfl, by rfl⟩

/-- C10 (amended): when the parse tree's `Envelope.Body` is an object, the
value of its first key is returned and all later children are silently
dropped; when `Body` has zero child elements it is an (empty) string rather
than an empty object, so the malformed-envelope error is raised rather than
`undefined` returned. -/
theorem c10_first_key_only (s : String) (t env : JsVal)
    (hp : parseXml s = .ok t) (hEnv : jsGetKey t "Envelope" = some env) :
    (∀ k v rest, jsGetKey env "Body" = some (.obj ((k, v) :: rest)) →
        parseXmlResponse s = .ok (some v)) ∧
    (jsGetKey env "Body" = some (.str "") →
        parseXmlResponse s
          = .error "XML parsing failed: Invalid SOAP response: Envelope or Body not found") := by
  constructor
  · intro k v rest hB
    cases env with
    | str s' => rw [show jsGetKey (JsVal.str s') "Body" = none by rfl] at hB; cases hB
    | arr l => rw [show jsGetKey (JsVal.arr l) "Body" = none by rfl] at hB; cases hB
    | obj l =>
      have hPE : parseEnvelopeTree t = .ok (some v) := by
        simp only [parseEnvelopeTree, hEnv, jsTruthy]
        simp only [hB, jsTruthy, jsKeys, List.map_cons, List.head?]
        simp [jsGetKey]
      simp only [parseXmlResponse, hp, hPE]
  · intro hB
    cases env with
    | str s' => rw [show jsGetKey (JsVal.str s') "Body" = none by rfl] at hB; cases hB
    | arr l => rw [show jsGetKey (JsVal.arr l) "Body" = none by rfl] at hB; cases hB
    | obj l =>
      have hPE : parseEnvelopeTree t
          = .error "Invalid SOAP response: Envelope or Body not found" := by
        simp only [parseEnvelopeTree, hEnv, jsTruthy]
        simp only [hB, jsTruthy]
        simp
      simp only [parseXmlResponse, hp, hPE]
      rfl

/-- C10 witness: a two-child body returns the first child only. -/
theorem c10_witness :
    parseXmlResponse "<Envelope><Body><X>1</X><Y>2</Y></Body></Envelope>"
      = .ok (some (.str "1")) :=
  (c10_first_key_only "<Envelope><Body><X>1</X><Y>2</Y></Body></Envelope>"
      (.obj [("Envelope", .obj [("Body", .obj [("X", .str "1"), ("Y", .str "2")])])])
      (.obj [("Body", .obj [("X", .str "1"), ("Y", .str "2")])]) rfl rfl).1
    "X" (.str "1") [("Y", .str "2")] rfl

end Hnap
